import Mathlib

set_option linter.unusedVariables false

namespace Rida

/-! Shallow embedding of the HTML-extraction core of the ReadNovelFull /
MangaPill reader modules.  JavaScript strings are modelled as lists of
characters (`JStr`); each concrete regex-`replace` of the source is modelled
by a dedicated scanner that mimics exactly that regex, scanning left to right
the way a global `String.replace` does. -/

abbrev JStr := List Char

def jstr (s : String) : JStr := s.toList

/-- The ECMAScript whitespace characters recognised by `String.prototype.trim`
and by the `\s` character class (the subset that can occur in this model). -/
def jsWs (c : Char) : Bool :=
  c == ' ' || c == '\t' || c == '\n' || c == '\r' ||
  c == '\x0b' || c == '\x0c' || c == '\u00A0' || c == '\uFEFF'

/-- Left half of `String.prototype.trim`. -/
def trimL (s : JStr) : JStr := s.dropWhile jsWs

/-- Right half of `String.prototype.trim`. -/
def trimR (s : JStr) : JStr := (s.reverse.dropWhile jsWs).reverse

/-- Model of `String.prototype.trim`. -/
def jsTrim (s : JStr) : JStr := trimR (trimL s)

/-- JS `a || b` where `a` is a string: the empty string is falsy. -/
def jsOr (a b : JStr) : JStr := if a = [] then b else a

/-- Model of `.startsWith('http')`. -/
def startsWithHttp : JStr → Bool
  | 'h' :: 't' :: 't' :: 'p' :: _ => true
  | _ => false

def lc (c : Char) : Char := c.toLower

/-- Case-insensitive literal prefix test (for regexes compiled with the `i`
flag). -/
def ciPrefixOf : JStr → JStr → Bool
  | [], _ => true
  | _ :: _, [] => false
  | p :: ps, c :: cs => lc p == lc c && ciPrefixOf ps cs

/-- JS `String.fromCharCode`: the argument goes through ToUint16, i.e. is
reduced mod 2^16.  Code units in the surrogate range are not Unicode scalar
values; `Char.ofNat` maps those to the null character, which is where this
model leaves UTF-16 behind (no claim exercises them). -/
def fromCharCode (n : Nat) : Char := Char.ofNat (n % 65536)

def parseDecDigits (ds : JStr) : Nat := ds.foldl (fun a c => a * 10 + (c.toNat - 48)) 0

def isHexDigitCh (c : Char) : Bool :=
  c.isDigit || (decide ('a' ≤ c) && decide (c ≤ 'f')) || (decide ('A' ≤ c) && decide (c ≤ 'F'))

def hexVal (c : Char) : Nat :=
  if c.isDigit then c.toNat - 48 else if decide ('a' ≤ c) then c.toNat - 87 else c.toNat - 55

def parseHexDigits (hs : JStr) : Nat := hs.foldl (fun a c => a * 16 + hexVal c) 0

/-- One global-replace pass: at each position try `step`; on `some (out, n)`
emit `out` and resume after the `n` consumed characters (every step used in
this file consumes at least one character on success), otherwise copy one
character and advance.  The fuel starts at the input length; since every
iteration consumes at least one character of input and one unit of fuel, the
fuel can only run out when the input is already exhausted. -/
def scanGo (step : JStr → Option (JStr × Nat)) : Nat → JStr → JStr
  | 0, s => s
  | _ + 1, [] => []
  | fuel + 1, c :: rest =>
    match step (c :: rest) with
    | some (out, n) => out ++ scanGo step fuel ((c :: rest).drop n)
    | none => c :: scanGo step fuel rest

def scan (step : JStr → Option (JStr × Nat)) (s : JStr) : JStr := scanGo step s.length s

/-- Lookup for `&(name);` entity references directly after a `&`: returns the
decoded character and the number of consumed characters after the `&`. -/
def matchEntity (tbl : List (JStr × Char)) (s : JStr) : Option (Char × Nat) :=
  match tbl with
  | [] => none
  | (name, ch) :: rest =>
    if (name ++ [';']).isPrefixOf s then some (ch, name.length + 1) else matchEntity rest s

/-- Step for the named-entity pass `/&(nbsp|amp|...);/g`. -/
def namedStep (tbl : List (JStr × Char)) : JStr → Option (JStr × Nat)
  | c :: rest => if c = '&' then (matchEntity tbl rest).map (fun p => ([p.1], p.2 + 1)) else none
  | [] => none

/-- The apostrophe character (kept out of string literals on purpose). -/
def aposChar : Char := Char.ofNat 39

/-- Entity table of `decodeEntities` in ReadFullNovelV2.js and in both
MangaPill variants: `&(nbsp|amp|quot|lt|gt);`. -/
def translateV2 : List (JStr × Char) :=
  [(jstr "nbsp", ' '), (jstr "amp", '&'), (jstr "quot", '"'), (jstr "lt", '<'), (jstr "gt", '>')]

/-- Entity table of part_000 (`apos` added). -/
def translateP0 : List (JStr × Char) := translateV2 ++ [(jstr "apos", aposChar)]

/-- Match of `/&#(\d+);/gi` at the current position: `&`, `#`, one or more
decimal digits, `;`. -/
def matchDec : JStr → Option (Char × Nat)
  | c1 :: c2 :: rest =>
    if c1 = '&' ∧ c2 = '#' then
      let ds := rest.takeWhile (fun d => d.isDigit)
      if 0 < ds.length then
        match rest.drop ds.length with
        | sc :: _ => if sc = ';' then some (fromCharCode (parseDecDigits ds), ds.length + 3) else none
        | [] => none
      else none
    else none
  | _ => none

/-- Match of `/&#x([0-9A-Fa-f]+);/gi` at the current position (the `i` flag
also lets the literal `x` match `X`). -/
def matchHex : JStr → Option (Char × Nat)
  | c1 :: c2 :: c3 :: rest =>
    if c1 = '&' ∧ c2 = '#' ∧ (c3 = 'x' ∨ c3 = 'X') then
      let hs := rest.takeWhile isHexDigitCh
      if 0 < hs.length then
        match rest.drop hs.length with
        | sc :: _ => if sc = ';' then some (fromCharCode (parseHexDigits hs), hs.length + 4) else none
        | [] => none
      else none
    else none
  | _ => none

def decStep (s : JStr) : Option (JStr × Nat) := (matchDec s).map (fun p => ([p.1], p.2))

def hexStep (s : JStr) : Option (JStr × Nat) := (matchHex s).map (fun p => ([p.1], p.2))

def decodeNamedPass (tbl : List (JStr × Char)) (s : JStr) : JStr := scan (namedStep tbl) s

def decodeDecimalPass (s : JStr) : JStr := scan decStep s

def decodeHexPass (s : JStr) : JStr := scan hexStep s

/-- `decodeEntities` of ReadFullNovelV2.js (identical in part_001): named
pass (five entities, no `apos`), then decimal pass, then hex pass. -/
def decodeEntities (s : JStr) : JStr :=
  if s = [] then [] else decodeHexPass (decodeDecimalPass (decodeNamedPass translateV2 s))

/-- `decodeEntities` of part_000: same pipeline with `apos` in the table. -/
def decodeEntitiesP0 (s : JStr) : JStr :=
  if s = [] then [] else decodeHexPass (decodeDecimalPass (decodeNamedPass translateP0 s))

/-- `decodeEntities` of part_002: named and decimal passes only (no hex pass,
no empty-input guard; on a string input the missing guard is unobservable). -/
def decodeEntitiesP2 (s : JStr) : JStr := decodeDecimalPass (decodeNamedPass translateV2 s)

/-- Match of `/<br\s*\/?>/gi` at the current position. -/
def matchBr : JStr → Option Nat
  | c1 :: c2 :: c3 :: rest =>
    if c1 = '<' ∧ lc c2 = 'b' ∧ lc c3 = 'r' then
      let ws := rest.takeWhile jsWs
      match rest.drop ws.length with
      | '/' :: '>' :: _ => some (ws.length + 5)
      | '>' :: _ => some (ws.length + 4)
      | _ => none
    else none
  | _ => none

/-- Match of `/<[^>]*>/g` at the current position: a `<` matches only when a
`>` occurs later; otherwise the regex fails here and the scanner keeps the
character. -/
def matchTag : JStr → Option Nat
  | c :: rest =>
    if c = '<' ∧ (rest.takeWhile (fun d => d ≠ '>')).length < rest.length
    then some ((rest.takeWhile (fun d => d ≠ '>')).length + 2)
    else none
  | [] => none

/-- Helper for `matchPTag`: after `<` and an optional `/` (of length `sl`),
require `p`/`P` and then anything up to the next `>`. -/
def matchPTagTail (sl : Nat) : JStr → Option Nat
  | p :: r2 =>
    if lc p = 'p' ∧ (r2.takeWhile (fun d => d ≠ '>')).length < r2.length
    then some (sl + (r2.takeWhile (fun d => d ≠ '>')).length + 3)
    else none
  | [] => none

/-- Match of `/<\/?p[^>]*>/gi` at the current position. -/
def matchPTag : JStr → Option Nat
  | c :: rest =>
    if c = '<' then
      match rest with
      | s :: r => if s = '/' then matchPTagTail 1 r else matchPTagTail 0 (s :: r)
      | [] => none
    else none
  | [] => none

/-- First index (case-insensitive) at which `pat` occurs in the input. -/
def findCi (pat : JStr) : JStr → Option Nat
  | [] => if pat.isEmpty then some 0 else none
  | c :: rest => if ciPrefixOf pat (c :: rest) then some 0 else (findCi pat rest).map (fun n => n + 1)

/-- Match of `/<tag[^>]*>.*?<\/tag>/gis` at the current position (`tag` is
`script` or `style`): open tag up to the first `>`, then lazily up to the
first closing `</tag>`. -/
def matchBlock (tag : JStr) : JStr → Option Nat
  | c :: rest =>
    if c = '<' ∧ ciPrefixOf tag rest then
      let r1 := rest.drop tag.length
      let pre := r1.takeWhile (fun d => d ≠ '>')
      if pre.length < r1.length then
        let r2 := r1.drop (pre.length + 1)
        match findCi ('<' :: '/' :: (tag ++ ['>'])) r2 with
        | some i => some (1 + tag.length + pre.length + 1 + i + (tag.length + 3))
        | none => none
      else none
    else none
  | [] => none

def brStep (s : JStr) : Option (JStr × Nat) := (matchBr s).map (fun n => ([('\n' : Char)], n))

def tagStep (s : JStr) : Option (JStr × Nat) := (matchTag s).map (fun n => (([] : JStr), n))

def pTagStep (s : JStr) : Option (JStr × Nat) := (matchPTag s).map (fun n => (['\n', '\n'], n))

def blockStep (tag : JStr) (s : JStr) : Option (JStr × Nat) :=
  (matchBlock tag s).map (fun n => (([] : JStr), n))

/-- Step for `/\n{3,}/g → "\n\n"`: a run of three or more newlines collapses
to exactly two. -/
def collapseStep : JStr → Option (JStr × Nat)
  | c :: rest =>
    if c = '\n' ∧ 2 ≤ (rest.takeWhile (fun d => d = '\n')).length
    then some (['\n', '\n'], (rest.takeWhile (fun d => d = '\n')).length + 1)
    else none
  | [] => none

def brToNewline (s : JStr) : JStr := scan brStep s

def stripTags (s : JStr) : JStr := scan tagStep s

def pTagsToBreaks (s : JStr) : JStr := scan pTagStep s

def stripBlocks (tag : JStr) (s : JStr) : JStr := scan (blockStep tag) s

def collapseNewlines (s : JStr) : JStr := scan collapseStep s

/-- `cleanHtmlText` of ReadFullNovelV2.js:
`decodeEntities(html.replace(/<br\s*\/?>/gi, '\n').replace(/<[^>]*>/g, '').trim())`.
Note: no script/style removal, no paragraph handling, no newline collapsing,
and the trim happens before entity decoding. -/
def cleanHtmlText (html : JStr) : JStr :=
  if html = [] then [] else decodeEntities (jsTrim (stripTags (brToNewline html)))

/-- `cleanHtmlText` of part_000: script blocks, style blocks, `<p>` tags to
double newlines, `<br>` tags to newlines, strip tags, decode entities,
collapse 3+ newlines, trim. -/
def cleanHtmlTextP0 (html : JStr) : JStr :=
  if html = [] then []
  else jsTrim (collapseNewlines (decodeEntitiesP0 (stripTags (brToNewline
    (pTagsToBreaks (stripBlocks (jstr "style") (stripBlocks (jstr "script") html)))))))

/-- The TextCleaner pipeline exactly as §4.2 of the specification words it,
step by step: (1) remove script and style blocks wholesale, (2) paragraph
tags become a double line break, (3) line-break tags become a single line
break, (4) strip all remaining tags, (5) decode entities, (6) collapse 3+
consecutive line breaks to exactly 2 and trim.  Kept as a separate
definition so the source function can be compared against it. -/
def cleanPipelineSpec (html : JStr) : JStr :=
  let s1 := stripBlocks (jstr "script") html
  let s2 := stripBlocks (jstr "style") s1
  let s3 := pTagsToBreaks s2
  let s4 := brToNewline s3
  let s5 := stripTags s4
  let s6 := decodeEntitiesP0 s5
  jsTrim (collapseNewlines s6)

/-! ### The `exec`/`match` model

A compiled JS regex is modelled by its observable matching behaviour: given
the subject and the position search starts from (`lastIndex` for a global
regex), it either fails or reports the match position, the end of the match,
and the capture groups (`match.slice(1)`; a group that did not participate is
`none`).  The concrete regex literals of the source are structural patterns
over markup; only this exec behaviour of theirs is relevant to the verified
properties, so they stay abstract. -/

structure JsMatch where
  index : Nat
  stop : Nat
  groups : List (Option JStr)
deriving DecidableEq, Repr

structure JsRegex where
  execAt : JStr → Nat → Option JsMatch

/-- A well-behaved global regex: any reported match lies within the subject
and ends strictly after the position the search started from.  Every regex
literal of the source matches at least one literal character (`<` plus more),
so the concrete patterns all have this property; a regex that can produce a
zero-width match does not. -/
def Progressing (r : JsRegex) : Prop :=
  ∀ s i m, r.execAt s i = some m → i < m.stop ∧ m.stop ≤ s.length

/-- JS `match[k]` for `k ≥ 1`, i.e. entry `k - 1` of the sliced group list;
an absent (`undefined`) group behaves as the falsy empty string wherever the
source tests or trims it. -/
def grp (gs : List (Option JStr)) (k : Nat) : JStr :=
  match gs[k - 1]? with
  | some (some s) => s
  | _ => []

/-- `extractFirst`: `html.match(regex)` with a non-global regex (first match
from position 0), returning `match.slice(1)`. -/
def extractFirst (html : JStr) (r : JsRegex) : Option (List (Option JStr)) :=
  (r.execAt html 0).map JsMatch.groups

/-- The loop body of `extractAll`: `while ((match = regex.exec(html)) !== null)`.
After each match, `lastIndex` becomes the end of that match — the source has
no guard advancing `lastIndex` past a zero-width match, so the JS loop never
terminates on one; `none` models that divergence (fuel exhausted). -/
def extractAllFuel (r : JsRegex) (html : JStr) : Nat → Nat → Option (List JsMatch)
  | 0, _ => none
  | fuel + 1, lastIndex =>
    match r.execAt html lastIndex with
    | none => some []
    | some m => (extractAllFuel r html fuel m.stop).map (fun l => m :: l)

/-- `extractAll` with fuel `html.length + 2`, which a `Progressing` regex can
never exhaust (`lastIndex` strictly increases and is bounded by the length). -/
def extractAll (r : JsRegex) (html : JStr) : Option (List JsMatch) :=
  extractAllFuel r html (html.length + 2) 0

/-- A regex that never matches (for instantiating absent fields). -/
def neverRe : JsRegex := JsRegex.mk (fun _ _ => none)

/-- A regex that matches the whole (non-empty) subject exactly once, at
position 0, with the given capture groups. -/
def onceRe (gs : List (Option JStr)) : JsRegex :=
  JsRegex.mk (fun s i => if i = 0 ∧ 0 < s.length then some (JsMatch.mk 0 s.length gs) else none)

/-- A regex producing a zero-width match at every position, e.g. `/x*/g`
against a subject with no `x` — the non-advancing shape §4.3 warns about. -/
def zeroWidthRe : JsRegex :=
  JsRegex.mk (fun s i => if i ≤ s.length then some (JsMatch.mk i i []) else none)

/-! ### HTTP and observability model -/

structure Response where
  ok : Bool
  status : Nat
  body : JStr
deriving DecidableEq, Repr

/-- The fetch collaborator: `none` models a rejected promise (transport
error); request headers passed by the source do not influence this model. -/
abbrev Fetch := JStr → Option Response

/-- `console.error` / `console.warn` call sites (the observability sink);
purely informational `console.log` calls are not modelled. -/
inductive CEvent where
  | errSearchStatus (status : Nat)
  | errSearchCatch
  | errDetailsCatch
  | errChaptersStatus (status : Nat)
  | warnNoNovelId
  | errContentMissing
  | warnContentEmpty
  | errContentCatch
deriving DecidableEq, Repr

/-- Thrown errors, by reason; the outer catch of each operation re-throws
with a wrapped message, which only changes the text, not the reason. -/
inductive JsErr where
  | transport
  | constAssign
  | detailsStatus (status : Nat)
  | contentStatus (status : Nat)
  | contentMissing
  | contentEmpty
  | bookRequired
deriving DecidableEq, Repr

structure SearchResult where
  id : JStr
  title : JStr
  author : JStr
  coverUrl : JStr
  description : JStr
deriving DecidableEq, Repr

structure ChapterRef where
  id : JStr
  title : JStr
deriving DecidableEq, Repr

structure BookDetailsV2 where
  id : JStr
  title : JStr
  author : JStr
  coverUrl : JStr
  description : JStr
  genres : List JStr
  status : JStr
  chapters : List ChapterRef
deriving DecidableEq, Repr

/-- MangaPill details record; the source field `type` is called `mediaType`
here (`type` is reserved in Lean). -/
structure BookDetailsP1 where
  id : JStr
  title : JStr
  author : JStr
  coverUrl : JStr
  description : JStr
  genres : List JStr
  status : JStr
  mediaType : JStr
  chapters : List ChapterRef
deriving DecidableEq, Repr

/-- The part of the part_000 `book` argument that `getContent` reads. -/
structure BookRefP0 where
  id : JStr
deriving DecidableEq, Repr

/-! ### URL construction -/

def isUriUnreserved (c : Char) : Bool :=
  c.isAlphanum || c == '-' || c == '_' || c == '.' || c == '!' ||
  c == '~' || c == '*' || c == aposChar || c == '(' || c == ')'

def utf8Bytes (n : Nat) : List Nat :=
  if n < 128 then [n]
  else if n < 2048 then [192 + n / 64, 128 + n % 64]
  else if n < 65536 then [224 + n / 4096, 128 + (n / 64) % 64, 128 + n % 64]
  else [240 + n / 262144, 128 + (n / 4096) % 64, 128 + (n / 64) % 64, 128 + n % 64]

def hexDigitUpper (n : Nat) : Char := if n < 10 then Char.ofNat (48 + n) else Char.ofNat (55 + n)

def pctEncodeChar (c : Char) : JStr :=
  (utf8Bytes c.toNat).foldr (fun b a => '%' :: hexDigitUpper (b / 16) :: hexDigitUpper (b % 16) :: a) []

/-- Model of JS `encodeURIComponent` (percent-encodes UTF-8 bytes of every
character outside the unreserved set). -/
def encodeURIComponent (s : JStr) : JStr :=
  s.foldr (fun c a => (if isUriUnreserved c then [c] else pctEncodeChar c) ++ a) []

def BASE_URL : JStr := jstr "https://readnovelfull.com"

def baseP1 : JStr := jstr "https://mangapill.com"

def siteP0 : JStr := jstr "https://www.readwn.com"

def placeholderCover : JStr := jstr "https://via.placeholder.com/150x200?text=No+Cover"

def searchUrlV2 (q : JStr) : JStr :=
  BASE_URL ++ jstr "/novel-list/search?keyword=" ++ encodeURIComponent q

/-- Primary detail/chapter URL of ReadFullNovelV2.js: with `.html` suffix. -/
def urlWithHtml (id : JStr) : JStr := BASE_URL ++ '/' :: (id ++ jstr ".html")

/-- Alternate URL construction: without the `.html` suffix. -/
def urlNoHtml (id : JStr) : JStr := BASE_URL ++ '/' :: id

def ajaxUrlV2 (numId : JStr) : JStr := BASE_URL ++ jstr "/ajax/chapter-archive?novelId=" ++ numId

def searchUrlP1 (q : JStr) : JStr := baseP1 ++ jstr "/search?q=" ++ encodeURIComponent q

def bookUrlP1 (id : JStr) : JStr := baseP1 ++ id

def contentUrlP0 (novelSlug chapterSlug : JStr) : JStr :=
  siteP0 ++ jstr "/novel/" ++ novelSlug ++ '/' :: chapterSlug

/-! ### ReadFullNovelV2.js (first document): search / getBookDetails / getContent -/

/-- The regex literals used by ReadFullNovelV2.js, as abstract matchers. -/
structure V2Regexes where
  comprehensiveItem : JsRegex
  title : JsRegex
  author : JsRegex
  cover : JsRegex
  desc : JsRegex
  genreList : JsRegex
  genreLink : JsRegex
  status : JsRegex
  novelId : JsRegex
  novelIdAlt : JsRegex
  chapterItem : JsRegex
  listChapter : JsRegex
  content : JsRegex

/-- Loop body of the `search` result loop: builds one result, skipped unless
`id` and `title` are truthy. -/
def v2SearchItem (m : JsMatch) : Option SearchResult :=
  let id := grp m.groups 1
  let coverUrl := if startsWithHttp (grp m.groups 2) then grp m.groups 2 else BASE_URL ++ grp m.groups 2
  let title := decodeEntities (jsTrim (grp m.groups 3))
  let author := decodeEntities (jsTrim (grp m.groups 4))
  let description := cleanHtmlText (grp m.groups 5)
  if id ≠ [] ∧ title ≠ [] then
    some (SearchResult.mk id title (jsOr author (jstr "Unknown Author"))
      (jsOr coverUrl placeholderCover) (jsOr description (jstr "No description available.")))
  else none

/-- `search` of ReadFullNovelV2.js.  Every throwing path of the source lies
inside its `try`, whose catch returns `[]`, so the function cannot raise; the
only non-returning behaviour is the unguarded `extractAll` loop (`none`). -/
def searchV2 (R : V2Regexes) (fetch : Fetch) (query : JStr) :
    Option (List SearchResult × List CEvent) :=
  match fetch (searchUrlV2 query) with
  | none => some ([], [CEvent.errSearchCatch])
  | some resp =>
    if resp.ok then
      match extractAll R.comprehensiveItem resp.body with
      | none => none
      | some ms => some (ms.filterMap v2SearchItem, [])
    else some ([], [CEvent.errSearchStatus resp.status])

/-- Genre extraction of `getBookDetails` (V2). -/
def v2Genres (R : V2Regexes) (html : JStr) : Option (List JStr) :=
  match extractFirst html R.genreList with
  | none => some []
  | some gs =>
    match extractAll R.genreLink (grp gs 1) with
    | none => none
    | some ms => some (ms.map (fun m => decodeEntities (jsTrim (grp m.groups 1))))

def v2ChapterItem (m : JsMatch) : Option ChapterRef :=
  let cid := grp m.groups 1
  let ctitle := decodeEntities (jsTrim (grp m.groups 2))
  if cid ≠ [] ∧ ctitle ≠ [] then some (ChapterRef.mk cid ctitle) else none

/-- Chapter extraction of `getBookDetails` (V2): resolve the numeric novel id
(`?? `-chained patterns), then a dependent AJAX fetch; a rejected AJAX fetch
propagates to the catch, a non-success AJAX status only logs and leaves the
chapter list empty; without a numeric id, fall back to the embedded list. -/
def v2Chapters (R : V2Regexes) (fetch : Fetch) (html : JStr) :
    Option (Except JsErr (List ChapterRef) × List CEvent) :=
  match (match extractFirst html R.novelId with
         | some gs => some gs
         | none => extractFirst html R.novelIdAlt) with
  | some gs =>
    match fetch (ajaxUrlV2 (grp gs 1)) with
    | none => some (Except.error JsErr.transport, [])
    | some cresp =>
      if cresp.ok then
        match extractAll R.chapterItem cresp.body with
        | none => none
        | some ms => some (Except.ok (ms.filterMap v2ChapterItem), [])
      else some (Except.ok [], [CEvent.errChaptersStatus cresp.status])
  | none =>
    match extractFirst html R.listChapter with
    | some gs =>
      match extractAll R.chapterItem (grp gs 1) with
      | none => none
      | some ms => some (Except.ok (ms.filterMap v2ChapterItem), [CEvent.warnNoNovelId])
    | none => some (Except.ok [], [CEvent.warnNoNovelId])

/-- Field extraction of `getBookDetails` (V2) on a successfully fetched
document. -/
def v2ParseDetails (R : V2Regexes) (fetch : Fetch) (id : JStr) (html : JStr) :
    Option (Except JsErr BookDetailsV2 × List CEvent) :=
  let title := match extractFirst html R.title with
    | some gs => decodeEntities (jsTrim (grp gs 1))
    | none => jstr "Unknown Title"
  let author := match extractFirst html R.author with
    | some gs => decodeEntities (jsTrim (grp gs 1))
    | none => jstr "Unknown Author"
  let coverUrl := match extractFirst html R.cover with
    | some gs => if startsWithHttp (grp gs 1) then grp gs 1 else BASE_URL ++ grp gs 1
    | none => placeholderCover
  let description := match extractFirst html R.desc with
    | some gs => cleanHtmlText (grp gs 1)
    | none => jstr "No description available."
  match v2Genres R html with
  | none => none
  | some genres =>
    let status := match extractFirst html R.status with
      | some gs => decodeEntities (jsTrim (grp gs 1))
      | none => jstr "Unknown"
    match v2Chapters R fetch html with
    | none => none
    | some (Except.error e, log) => some (Except.error e, log ++ [CEvent.errDetailsCatch])
    | some (Except.ok chapters, log) =>
      some (Except.ok (BookDetailsV2.mk id title author coverUrl description genres status chapters), log)

/-- `getBookDetails` of ReadFullNovelV2.js.  `response` is a `const` binding:
when the primary fetch is non-success, the source evaluates the fallback
fetch and then the reassignment `response = ...` throws a TypeError, so the
catch turns EVERY non-success primary response into a failed operation — the
written both-URLs-failed check is unreachable. -/
def getBookDetailsV2 (R : V2Regexes) (fetch : Fetch) (id : JStr) :
    Option (Except JsErr BookDetailsV2 × List CEvent) :=
  match fetch (urlWithHtml id) with
  | none => some (Except.error JsErr.transport, [CEvent.errDetailsCatch])
  | some resp =>
    if resp.ok then v2ParseDetails R fetch id resp.body
    else
      match fetch (urlNoHtml id) with
      | none => some (Except.error JsErr.transport, [CEvent.errDetailsCatch])
      | some _ => some (Except.error JsErr.constAssign, [CEvent.errDetailsCatch])

/-- Body extraction of `getContent` (V2) on a successfully fetched chapter
page: `#chr-content` must match with a truthy capture, and the cleaned text
must be non-empty. -/
def v2ContentBody (R : V2Regexes) (html : JStr) : Except JsErr JStr × List CEvent :=
  match extractFirst html R.content with
  | none => (Except.error JsErr.contentMissing, [CEvent.errContentMissing, CEvent.errContentCatch])
  | some gs =>
    if grp gs 1 = [] then
      (Except.error JsErr.contentMissing, [CEvent.errContentMissing, CEvent.errContentCatch])
    else
      let content := cleanHtmlText (grp gs 1)
      if content = [] then
        (Except.error JsErr.contentEmpty, [CEvent.warnContentEmpty, CEvent.errContentCatch])
      else (Except.ok content, [])

/-- `getContent` of ReadFullNovelV2.js.  Here `response` is a `let` binding,
so the documented alternate-URL retry works: a non-success primary response
is retried once without the `.html` suffix, and only a second non-success
response raises. -/
def getContentV2 (R : V2Regexes) (fetch : Fetch) (id : JStr) :
    Except JsErr JStr × List CEvent :=
  match fetch (urlWithHtml id) with
  | none => (Except.error JsErr.transport, [CEvent.errContentCatch])
  | some r1 =>
    if r1.ok then v2ContentBody R r1.body
    else
      match fetch (urlNoHtml id) with
      | none => (Except.error JsErr.transport, [CEvent.errContentCatch])
      | some r2 =>
        if r2.ok then v2ContentBody R r2.body
        else (Except.error (JsErr.contentStatus r2.status), [CEvent.errContentCatch])

/-! ### part_001 (MangaPill): search / getBookDetails -/

/-- The regex literals used by the MangaPill module, as abstract matchers. -/
structure P1Regexes where
  item : JsRegex
  title : JsRegex
  cover : JsRegex
  coverAlt : JsRegex
  desc : JsRegex
  author : JsRegex
  authorAlt : JsRegex
  status : JsRegex
  mediaType : JsRegex
  genreLink : JsRegex
  chaptersDiv : JsRegex
  chapterLink : JsRegex

/-- Loop body of the MangaPill `search` loop: the block is kept only when
`match[1]` is truthy and starts with `/manga/`; the cover is `match[2]`
verbatim and description/author are left empty. -/
def p1SearchItem (m : JsMatch) : Option SearchResult :=
  let p := grp m.groups 1
  if p ≠ [] ∧ (jstr "/manga/").isPrefixOf p then
    some (SearchResult.mk p (decodeEntities (jsTrim (grp m.groups 4))) [] (grp m.groups 2) [])
  else none

/-- `search` of the MangaPill module (same control flow as `searchV2`). -/
def searchP1 (R : P1Regexes) (fetch : Fetch) (query : JStr) :
    Option (List SearchResult × List CEvent) :=
  match fetch (searchUrlP1 query) with
  | none => some ([], [CEvent.errSearchCatch])
  | some resp =>
    if resp.ok then
      match extractAll R.item resp.body with
      | none => none
      | some ms => some (ms.filterMap p1SearchItem, [])
    else some ([], [CEvent.errSearchStatus resp.status])

/-- Chapter extraction of the MangaPill `getBookDetails`: first match of the
`#chapters` div, then all chapter links inside it, pushed unconditionally and
reversed into reading order. -/
def p1Chapters (R : P1Regexes) (html : JStr) : Option (List ChapterRef) :=
  match R.chaptersDiv.execAt html 0 with
  | some m =>
    if grp m.groups 1 = [] then some []
    else
      match extractAll R.chapterLink (grp m.groups 1) with
      | none => none
      | some ms =>
        some ((ms.map (fun cm =>
          ChapterRef.mk (grp cm.groups 1) (decodeEntities (jsTrim (grp cm.groups 2))))).reverse)
  | none => some []

/-- `getBookDetails` of the MangaPill module: no alternate-URL retry; every
absent field falls back to a default (`Unknown Title`, `N/A`, empty cover). -/
def getBookDetailsP1 (R : P1Regexes) (fetch : Fetch) (id : JStr) :
    Option (Except JsErr BookDetailsP1 × List CEvent) :=
  match fetch (bookUrlP1 id) with
  | none => some (Except.error JsErr.transport, [CEvent.errDetailsCatch])
  | some resp =>
    if resp.ok then
      let html := resp.body
      let title := match extractFirst html R.title with
        | some gs => decodeEntities (jsTrim (grp gs 1))
        | none => jstr "Unknown Title"
      let coverUrl := match extractFirst html R.cover with
        | some gs => grp gs 1
        | none =>
          match extractFirst html R.coverAlt with
          | some gs => grp gs 1
          | none => []
      let description := match extractFirst html R.desc with
        | some gs => decodeEntities (jsTrim (grp gs 1))
        | none => jstr "No description available."
      let author := match extractFirst html R.author with
        | some gs => decodeEntities (jsTrim (grp gs 1))
        | none =>
          match extractFirst html R.authorAlt with
          | some gs => decodeEntities (jsTrim (grp gs 1))
          | none => jstr "N/A"
      let status := match extractFirst html R.status with
        | some gs => decodeEntities (jsTrim (grp gs 1))
        | none => jstr "N/A"
      let mediaType := match extractFirst html R.mediaType with
        | some gs => decodeEntities (jsTrim (grp gs 1))
        | none => jstr "N/A"
      match extractAll R.genreLink html with
      | none => none
      | some gms =>
        let genres := gms.map (fun m => decodeEntities (jsTrim (grp m.groups 1)))
        match p1Chapters R html with
        | none => none
        | some chapters =>
          some (Except.ok (BookDetailsP1.mk id title author coverUrl description genres
            status mediaType chapters), [])
    else some (Except.error (JsErr.detailsStatus resp.status), [CEvent.errDetailsCatch])

/-! ### part_000 (ReadNovelFull / readwn): getContent with its fallback chain -/

/-- The two content-container regex literals of part_000 `getContent`. -/
structure P0Regexes where
  content : JsRegex
  fallback : JsRegex

/-- Tail of part_000 `getContent` once a container capture `c` was chosen:
clean it, and raise when the cleaned text is empty. -/
def p0Finish (c : JStr) (log : List CEvent) : Except JsErr JStr × List CEvent :=
  let content := cleanHtmlTextP0 c
  if content = [] then
    (Except.error JsErr.contentEmpty, log ++ [CEvent.warnContentEmpty, CEvent.errContentCatch])
  else (Except.ok content, log)

/-- Fallback branch of part_000 `getContent`: tried only when the primary
container match is absent or captured a falsy (empty) string. -/
def p0Fallback (R : P0Regexes) (html : JStr) : Except JsErr JStr × List CEvent :=
  match extractFirst html R.fallback with
  | some gs =>
    if grp gs 1 = [] then
      (Except.error JsErr.contentMissing, [CEvent.errContentMissing, CEvent.errContentCatch])
    else p0Finish (grp gs 1) [CEvent.errContentMissing]
  | none => (Except.error JsErr.contentMissing, [CEvent.errContentMissing, CEvent.errContentCatch])

/-- `getContent` of part_000: requires the `book` argument (checked before
the `try`, hence no catch log on that path), builds the chapter URL from the
novel slug and chapter slug, has no alternate-URL retry, and resolves the
container through the primary-then-fallback pattern chain. -/
def getContentP0 (R : P0Regexes) (fetch : Fetch) (id : JStr) (book : Option BookRefP0) :
    Except JsErr JStr × List CEvent :=
  match book with
  | none => (Except.error JsErr.bookRequired, [])
  | some b =>
    if b.id = [] then (Except.error JsErr.bookRequired, [])
    else
      match fetch (contentUrlP0 b.id id) with
      | none => (Except.error JsErr.transport, [CEvent.errContentCatch])
      | some resp =>
        if resp.ok then
          match extractFirst resp.body R.content with
          | some gs =>
            if grp gs 1 = [] then p0Fallback R resp.body
            else p0Finish (grp gs 1) []
          | none => p0Fallback R resp.body
        else (Except.error (JsErr.contentStatus resp.status), [CEvent.errContentCatch])

/-! ### Definitions used by the proofs and by concrete test instances -/

/-- A string with no occurrence of three consecutive newlines (the shape the
`/\n{3,}/g` collapse step eliminates). -/
def NoTriple (s : JStr) : Prop := ∀ l r : JStr, s ≠ l ++ '\n' :: '\n' :: '\n' :: r

/-- All-patterns-fail configuration for the ReadNovelFull module. -/
def RallNeverV2 : V2Regexes :=
  V2Regexes.mk neverRe neverRe neverRe neverRe neverRe neverRe neverRe
    neverRe neverRe neverRe neverRe neverRe neverRe

/-- All-patterns-fail configuration for the MangaPill module. -/
def RallNeverP1 : P1Regexes :=
  P1Regexes.mk neverRe neverRe neverRe neverRe neverRe neverRe
    neverRe neverRe neverRe neverRe neverRe neverRe

/-- A host transport that answers every request with one fixed OK page. -/
def fetchOk : Fetch := fun _ => some (Response.mk true 200 (jstr "page"))

/-- A host transport that answers every request with HTTP 500. -/
def fetch500 : Fetch := fun _ => some (Response.mk false 500 [])

/-- A host transport whose every request rejects (network error). -/
def fetchNone : Fetch := fun _ => none

/-- Capture groups of one well-formed ReadNovelFull search block (slug,
relative cover, title, author, description HTML). -/
def searchGroupsC1 : List (Option JStr) :=
  [some (jstr "martial-peak"), some (jstr "/img/c.jpg"), some (jstr "Martial Peak"),
   some (jstr "Momo"), some (jstr "<p>desc</p>")]

/-- ReadNovelFull configuration whose search pattern yields exactly one
well-formed block and whose detail patterns all fail. -/
def RsearchC1 : V2Regexes := { RallNeverV2 with comprehensiveItem := onceRe searchGroupsC1 }

/-- The search result `searchV2` produces from `searchGroupsC1`. -/
def resultC1 : SearchResult :=
  SearchResult.mk (jstr "martial-peak") (jstr "Martial Peak") (jstr "Momo")
    (BASE_URL ++ jstr "/img/c.jpg") (jstr "desc")

/-- The all-defaults details record for a given identifier (what the V2
module returns when every detail pattern fails). -/
def defaultsV2 (id : JStr) : BookDetailsV2 :=
  BookDetailsV2.mk id (jstr "Unknown Title") (jstr "Unknown Author") placeholderCover
    (jstr "No description available.") [] (jstr "Unknown") []

/-- The all-defaults MangaPill details record for a given identifier. -/
def defaultsP1 (id : JStr) : BookDetailsP1 :=
  BookDetailsP1.mk id (jstr "Unknown Title") (jstr "N/A") [] (jstr "No description available.")
    [] (jstr "N/A") (jstr "N/A") []

/-- Transport for the retry scenarios: the primary `.html` URL of book `x`
answers 500, the alternate URL answers OK. -/
def fetchC6 : Fetch := fun url =>
  if url = urlWithHtml (jstr "x") then some (Response.mk false 500 [])
  else if url = urlNoHtml (jstr "x") then some (Response.mk true 200 (jstr "page"))
  else none

/-- V2 configuration whose chapter-content pattern captures `<p>Hi</p>`. -/
def RC6 : V2Regexes := { RallNeverV2 with content := onceRe [some (jstr "<p>Hi</p>")] }

/-- MangaPill configuration whose search pattern yields one block with a
relative `data-src` cover path. -/
def Rp1Search : P1Regexes :=
  { RallNeverP1 with item := onceRe [some (jstr "/manga/1/one-piece"),
      some (jstr "/images/c.jpg"), some (jstr "alt"), some (jstr "One Piece")] }

/-- The search result `searchP1` produces from `Rp1Search` (relative cover). -/
def resultP1 : SearchResult :=
  SearchResult.mk (jstr "/manga/1/one-piece") (jstr "One Piece") [] (jstr "/images/c.jpg") []

/-- part_000 content configuration: the primary container never matches, the
fallback captures markup whose cleaned text is empty. -/
def Rp0Empty : P0Regexes := P0Regexes.mk neverRe (onceRe [some (jstr "<p></p>")])

/-- part_000 content configuration: the primary container never matches, the
fallback captures markup that cleans to `Hello`. -/
def Rp0Good : P0Regexes := P0Regexes.mk neverRe (onceRe [some (jstr "<p>Hello</p>")])

end Rida

deriving instance DecidableEq for Except

namespace Rida

/-! ## Generic lemmas about the replace scanner -/

theorem scanGo_no_trigger (step : JStr → Option (JStr × Nat)) (trig : Char)
    (hstep : ∀ c t, c ≠ trig → step (c :: t) = none) :
    ∀ fuel s, trig ∉ s → scanGo step fuel s = s := by
  intro fuel
  induction fuel with
  | zero => intro s _; rfl
  | succ n ih =>
    intro s hs
    match s with
    | [] => rfl
    | c :: rest =>
      rw [List.mem_cons, not_or] at hs
      simp only [scanGo]
      rw [hstep c rest (fun h => hs.1 h.symm)]
      exact congrArg (c :: ·) (ih rest hs.2)

theorem scan_no_trigger (step : JStr → Option (JStr × Nat)) (trig : Char)
    (hstep : ∀ c t, c ≠ trig → step (c :: t) = none)
    (s : JStr) (hs : trig ∉ s) : scan step s = s :=
  scanGo_no_trigger step trig hstep s.length s hs

theorem scanGo_mem (step : JStr → Option (JStr × Nat)) (Q : Char → Prop)
    (hout : ∀ t out n, step t = some (out, n) → ∀ c ∈ out, Q c) :
    ∀ fuel s c, c ∈ scanGo step fuel s → c ∈ s ∨ Q c := by
  intro fuel
  induction fuel with
  | zero => intro s c hc; exact Or.inl hc
  | succ n ih =>
    intro s c hc
    match s with
    | [] => exact Or.inl hc
    | d :: rest =>
      cases hstep : step (d :: rest) with
      | some p =>
        obtain ⟨out, k⟩ := p
        simp only [scanGo, hstep] at hc
        rcases List.mem_append.mp hc with h | h
        · exact Or.inr (hout _ _ _ hstep c h)
        · rcases ih _ c h with h2 | h2
          · exact Or.inl (List.mem_of_mem_drop h2)
          · exact Or.inr h2
      | none =>
        simp only [scanGo, hstep] at hc
        rcases List.mem_cons.mp hc with h | h
        · exact Or.inl (by simp [h])
        · rcases ih _ c h with h2 | h2
          · exact Or.inl (List.mem_cons_of_mem _ h2)
          · exact Or.inr h2

theorem scan_mem (step : JStr → Option (JStr × Nat)) (Q : Char → Prop)
    (hout : ∀ t out n, step t = some (out, n) → ∀ c ∈ out, Q c)
    (s : JStr) (c : Char) (hc : c ∈ scan step s) : c ∈ s ∨ Q c :=
  scanGo_mem step Q hout s.length s c hc

/-! ## The individual replace steps fire only at their trigger character -/

theorem namedStep_none (tbl : List (JStr × Char)) (c : Char) (t : JStr) (h : c ≠ '&') :
    namedStep tbl (c :: t) = none := by simp [namedStep, h]

theorem decStep_none (c : Char) (t : JStr) (h : c ≠ '&') : decStep (c :: t) = none := by
  cases t <;> simp [decStep, matchDec, h]

theorem hexStep_none (c : Char) (t : JStr) (h : c ≠ '&') : hexStep (c :: t) = none := by
  rcases t with _ | ⟨a, _ | ⟨b, r⟩⟩ <;> simp [hexStep, matchHex, h]

theorem brStep_none (c : Char) (t : JStr) (h : c ≠ '<') : brStep (c :: t) = none := by
  rcases t with _ | ⟨a, _ | ⟨b, r⟩⟩ <;> simp [brStep, matchBr, h]

theorem tagStep_none (c : Char) (t : JStr) (h : c ≠ '<') : tagStep (c :: t) = none := by
  simp [tagStep, matchTag, h]

theorem pTagStep_none (c : Char) (t : JStr) (h : c ≠ '<') : pTagStep (c :: t) = none := by
  simp [pTagStep, matchPTag, h]

theorem blockStep_none (tag : JStr) (c : Char) (t : JStr) (h : c ≠ '<') :
    blockStep tag (c :: t) = none := by simp [blockStep, matchBlock, h]

theorem collapseStep_none (c : Char) (t : JStr) (h : c ≠ '\n') :
    collapseStep (c :: t) = none := by simp [collapseStep, h]

/-! ## Identity of the passes on strings without their trigger -/

theorem brToNewline_no_lt (s : JStr) (h : '<' ∉ s) : brToNewline s = s :=
  scan_no_trigger _ '<' brStep_none s h

theorem stripTags_no_lt (s : JStr) (h : '<' ∉ s) : stripTags s = s :=
  scan_no_trigger _ '<' tagStep_none s h

theorem pTagsToBreaks_no_lt (s : JStr) (h : '<' ∉ s) : pTagsToBreaks s = s :=
  scan_no_trigger _ '<' pTagStep_none s h

theorem stripBlocks_no_lt (tag s : JStr) (h : '<' ∉ s) : stripBlocks tag s = s :=
  scan_no_trigger _ '<' (blockStep_none tag) s h

theorem decodeNamedPass_no_amp (tbl : List (JStr × Char)) (s : JStr) (h : '&' ∉ s) :
    decodeNamedPass tbl s = s :=
  scan_no_trigger _ '&' (namedStep_none tbl) s h

theorem decodeDecimalPass_no_amp (s : JStr) (h : '&' ∉ s) : decodeDecimalPass s = s :=
  scan_no_trigger _ '&' decStep_none s h

theorem decodeHexPass_no_amp (s : JStr) (h : '&' ∉ s) : decodeHexPass s = s :=
  scan_no_trigger _ '&' hexStep_none s h

theorem decodeEntities_no_amp (s : JStr) (h : '&' ∉ s) : decodeEntities s = s := by
  by_cases hs : s = []
  · simp [decodeEntities, hs]
  · rw [decodeEntities, if_neg hs, decodeNamedPass_no_amp _ _ h,
      decodeDecimalPass_no_amp _ h, decodeHexPass_no_amp _ h]

theorem decodeEntitiesP0_no_amp (s : JStr) (h : '&' ∉ s) : decodeEntitiesP0 s = s := by
  by_cases hs : s = []
  · simp [decodeEntitiesP0, hs]
  · rw [decodeEntitiesP0, if_neg hs, decodeNamedPass_no_amp _ _ h,
      decodeDecimalPass_no_amp _ h, decodeHexPass_no_amp _ h]

theorem collapseStep_out (t out : JStr) (n : Nat) (hstep : collapseStep t = some (out, n)) :
    ∀ c ∈ out, c = '\n' := by
  intro c hc
  rcases t with _ | ⟨e, rest⟩
  · simp [collapseStep] at hstep
  · simp only [collapseStep] at hstep
    split at hstep
    · simp only [Option.some.injEq, Prod.mk.injEq] at hstep
      rw [← hstep.1] at hc
      simp at hc
      exact hc
    · exact absurd hstep (by simp)

theorem collapseNewlines_mem (s : JStr) (c : Char) (hc : c ∈ collapseNewlines s) :
    c ∈ s ∨ c = '\n' :=
  scan_mem _ _ collapseStep_out s c hc

/-! ## Lemmas about trim -/

theorem trimL_decomp (s : JStr) : ∃ a, s = a ++ trimL s :=
  ⟨s.takeWhile jsWs, (List.takeWhile_append_dropWhile jsWs s).symm⟩

theorem trimR_decomp (s : JStr) : ∃ b, s = trimR s ++ b := by
  refine ⟨(s.reverse.takeWhile jsWs).reverse, ?_⟩
  conv_lhs => rw [← s.reverse_reverse, ← List.takeWhile_append_dropWhile jsWs s.reverse]
  rw [List.reverse_append]
  rfl

theorem jsTrim_decomp (s : JStr) : ∃ a b, s = a ++ jsTrim s ++ b := by
  obtain ⟨a, ha⟩ := trimL_decomp s
  obtain ⟨b, hb⟩ := trimR_decomp (trimL s)
  refine ⟨a, b, ?_⟩
  calc s = a ++ trimL s := ha
    _ = a ++ (trimR (trimL s) ++ b) := by rw [← hb]
    _ = a ++ jsTrim s ++ b := by simp [jsTrim, List.append_assoc]

theorem mem_of_mem_jsTrim (s : JStr) (c : Char) (h : c ∈ jsTrim s) : c ∈ s := by
  obtain ⟨a, b, hab⟩ := jsTrim_decomp s
  rw [hab]
  simp [h]

theorem trimL_head?_not (s : JStr) (c : Char) (h : (trimL s).head? = some c) :
    jsWs c = false := by
  have hd := List.head?_dropWhile_not jsWs s
  rw [show (List.dropWhile jsWs s).head? = some c from h] at hd
  exact hd

theorem trimL_eq_self (s : JStr) (h : ∀ c, s.head? = some c → jsWs c = false) :
    trimL s = s := by
  cases s with
  | nil => rfl
  | cons c rest =>
    have := h c rfl
    simp [trimL, List.dropWhile_cons, this]

theorem trimR_idem (s : JStr) : trimR (trimR s) = trimR s := by
  simp [trimR, List.reverse_reverse, List.dropWhile_idempotent]

theorem trimR_head? (s : JStr) (c : Char) (h : (trimR s).head? = some c) :
    s.head? = some c := by
  obtain ⟨b, hb⟩ := trimR_decomp s
  rw [hb]
  cases htr : trimR s with
  | nil => rw [htr] at h; simp at h
  | cons d r =>
    rw [htr] at h
    simp only [List.head?] at h
    simp [h]

theorem trimL_trimR_trimL (s : JStr) : trimL (trimR (trimL s)) = trimR (trimL s) := by
  apply trimL_eq_self
  intro c h
  exact trimL_head?_not s c (trimR_head? _ c h)

theorem jsTrim_idem (s : JStr) : jsTrim (jsTrim s) = jsTrim s := by
  show trimR (trimL (trimR (trimL s))) = trimR (trimL s)
  rw [trimL_trimR_trimL, trimR_idem]

/-! ## Lemmas about the newline collapse -/

theorem noTriple_nil : NoTriple [] := by
  intro l r h
  have := congrArg List.length h
  simp at this
  omega

theorem noTriple_tail (c : Char) (s : JStr) (h : NoTriple (c :: s)) : NoTriple s := by
  intro l r heq
  exact h (c :: l) r (by simp [heq])

theorem noTriple_middle (a m b : JStr) (h : NoTriple (a ++ m ++ b)) : NoTriple m := by
  intro l r heq
  apply h (a ++ l) (r ++ b)
  rw [heq]
  simp [List.append_assoc]

theorem two_newlines_of_takeWhile (rest : JStr)
    (h : 2 ≤ (rest.takeWhile (fun d => d = '\n')).length) :
    ∃ t, rest = '\n' :: '\n' :: t := by
  rcases rest with _ | ⟨a, _ | ⟨b, t⟩⟩
  · simp at h
  · by_cases ha : a = '\n' <;> simp [List.takeWhile_cons, ha] at h
  · by_cases ha : a = '\n'
    · by_cases hb : b = '\n'
      · exact ⟨t, by rw [ha, hb]⟩
      · exfalso
        simp [List.takeWhile_cons, ha, hb] at h
    · exfalso
      simp [List.takeWhile_cons, ha] at h

theorem collapseGo_head? : ∀ fuel s, (scanGo collapseStep fuel s).head? = s.head? := by
  intro fuel
  induction fuel with
  | zero => intro s; rfl
  | succ n ih =>
    intro s
    rcases s with _ | ⟨c, rest⟩
    · rfl
    · simp only [scanGo]
      cases hstep : collapseStep (c :: rest) with
      | none => simp
      | some p =>
        obtain ⟨out, k⟩ := p
        have hck : c = '\n' ∧ out = ['\n', '\n'] := by
          simp only [collapseStep] at hstep
          split at hstep
          · rename_i hcond
            simp only [Option.some.injEq, Prod.mk.injEq] at hstep
            exact ⟨hcond.1, hstep.1.symm⟩
          · exact absurd hstep (by simp)
        rw [hck.1, hck.2]
        rfl

theorem collapseGo_of_noTriple :
    ∀ fuel s, NoTriple s → s.length ≤ fuel → scanGo collapseStep fuel s = s := by
  intro fuel
  induction fuel with
  | zero =>
    intro s _ hl
    rfl
  | succ n ih =>
    intro s hnt hl
    rcases s with _ | ⟨c, rest⟩
    · rfl
    · have hstep : collapseStep (c :: rest) = none := by
        simp only [collapseStep]
        rw [if_neg]
        intro hcond
        obtain ⟨t, ht⟩ := two_newlines_of_takeWhile rest hcond.2
        exact hnt [] t (by rw [hcond.1, ht]; rfl)
      simp only [scanGo, hstep]
      rw [ih rest (noTriple_tail c rest hnt) (by simp at hl; omega)]

theorem collapseNewlines_of_noTriple (s : JStr) (h : NoTriple s) : collapseNewlines s = s :=
  collapseGo_of_noTriple s.length s h le_rfl

theorem noTriple_collapseGo :
    ∀ fuel s, s.length ≤ fuel → NoTriple (scanGo collapseStep fuel s) := by
  intro fuel
  induction fuel with
  | zero =>
    intro s hl
    have hs : s = [] := List.length_eq_zero.mp (Nat.le_zero.mp hl)
    rw [hs]
    exact noTriple_nil
  | succ n ih =>
    intro s hl
    rcases s with _ | ⟨c, rest⟩
    · exact noTriple_nil
    · simp only [scanGo]
      cases hstep : collapseStep (c :: rest) with
      | none =>
        have hu : NoTriple (scanGo collapseStep n rest) := ih rest (by simp at hl; omega)
        have hcnd : ¬(c = '\n' ∧ 2 ≤ (rest.takeWhile (fun d => d = '\n')).length) := by
          intro hcond
          simp only [collapseStep, if_pos hcond] at hstep
          simp at hstep
        intro l r heq
        rcases l with _ | ⟨x, l'⟩
        · simp only [List.nil_append] at heq
          injection heq with hc htail
          have hrun : (rest.takeWhile (fun d => d = '\n')).length ≤ 1 := by
            by_contra hgt
            exact hcnd ⟨hc, by omega⟩
          have hh1 := collapseGo_head? n rest
          rw [htail] at hh1
          rcases rest with _ | ⟨d, rest2⟩
          · simp at hh1
          · have hd : d = '\n' := by simpa using hh1.symm
            subst hd
            have hlen2 : (rest2.takeWhile (fun d => d = '\n')).length = 0 := by
              have h1 : ('\n' :: rest2).takeWhile (fun d => decide (d = '\n')) =
                  '\n' :: rest2.takeWhile (fun d => decide (d = '\n')) := by
                simp [List.takeWhile_cons]
              rw [h1] at hrun
              simp only [List.length_cons] at hrun
              omega
            obtain ⟨n2, rfl⟩ : ∃ n2, n = n2 + 1 := by
              refine ⟨n - 1, ?_⟩
              have h2 : rest2.length + 2 ≤ n + 1 := by simpa using hl
              omega
            have hstep2 : collapseStep ('\n' :: rest2) = none := by
              simp only [collapseStep]
              rw [if_neg]
              intro hcond2
              omega
            simp only [scanGo, hstep2] at htail
            injection htail with _ htail2
            have hh2 := collapseGo_head? n2 rest2
            rw [htail2] at hh2
            rcases rest2 with _ | ⟨e, rest3⟩
            · simp at hh2
            · have he : e = '\n' := by simpa using hh2.symm
              rw [List.takeWhile_cons, he] at hlen2
              simp at hlen2
        · injection heq with _ htail
          exact hu l' r htail
      | some p =>
        obtain ⟨out, k⟩ := p
        have hck : c = '\n' ∧ 2 ≤ (rest.takeWhile (fun d => d = '\n')).length ∧
            out = ['\n', '\n'] ∧ k = (rest.takeWhile (fun d => d = '\n')).length + 1 := by
          simp only [collapseStep] at hstep
          split at hstep
          · rename_i hcond
            simp only [Option.some.injEq, Prod.mk.injEq] at hstep
            exact ⟨hcond.1, hcond.2, hstep.1.symm, hstep.2.symm⟩
          · exact absurd hstep (by simp)
        obtain ⟨hc, hrun, hout, hk⟩ := hck
        have hdrop : (c :: rest).drop k = rest.drop ((rest.takeWhile (fun d => d = '\n')).length) := by
          rw [hk]
          rfl
        have hud : rest.drop ((rest.takeWhile (fun d => d = '\n')).length) =
            rest.dropWhile (fun d => d = '\n') := by
          have hsplit := List.takeWhile_append_dropWhile (fun d => decide (d = '\n')) rest
          nth_rewrite 2 [← hsplit]
          exact List.drop_left _ _
        have hu : NoTriple (scanGo collapseStep n ((c :: rest).drop k)) := by
          apply ih
          rw [hdrop]
          simp only [List.length_drop]
          simp at hl
          omega
        have hhead : ∀ r2, scanGo collapseStep n ((c :: rest).drop k) ≠ '\n' :: r2 := by
          intro r2 hcontra
          have hh := collapseGo_head? n ((c :: rest).drop k)
          rw [hcontra, hdrop, hud] at hh
          have hd2 := List.head?_dropWhile_not (fun d => decide (d = '\n')) rest
          rw [← hh] at hd2
          simp at hd2
        rw [hout]
        intro l r heq
        rcases l with _ | ⟨x, _ | ⟨y, l'⟩⟩
        · simp only [List.nil_append, List.cons_append] at heq
          injection heq with _ h1
          injection h1 with _ h2
          exact hhead r h2
        · simp only [List.cons_append, List.nil_append] at heq
          injection heq with _ h1
          injection h1 with _ h2
          exact hhead ('\n' :: r) h2
        · simp only [List.cons_append] at heq
          injection heq with _ h1
          injection h1 with _ h2
          exact hu l' r h2

theorem noTriple_collapseNewlines (s : JStr) : NoTriple (collapseNewlines s) :=
  noTriple_collapseGo s.length s le_rfl

/-! ## Behaviour of the cleaners on plain text -/

theorem not_mem_jsTrim (s : JStr) (c : Char) (hc : c ∉ s) : c ∉ jsTrim s :=
  fun h => hc (mem_of_mem_jsTrim s c h)

theorem not_mem_collapse (s : JStr) (c : Char) (hc : c ∉ s) (hne : c ≠ '\n') :
    c ∉ collapseNewlines s :=
  fun h => (collapseNewlines_mem s c h).elim hc hne

theorem cleanHtmlText_plain (t : JStr) (hlt : '<' ∉ t) (hamp : '&' ∉ t) :
    cleanHtmlText t = jsTrim t := by
  by_cases ht : t = []
  · rw [ht]; rfl
  · rw [cleanHtmlText, if_neg ht, brToNewline_no_lt t hlt, stripTags_no_lt t hlt,
      decodeEntities_no_amp _ (not_mem_jsTrim t '&' hamp)]

theorem cleanHtmlTextP0_plain (t : JStr) (hlt : '<' ∉ t) (hamp : '&' ∉ t) :
    cleanHtmlTextP0 t = jsTrim (collapseNewlines t) := by
  by_cases ht : t = []
  · rw [ht]; rfl
  · rw [cleanHtmlTextP0, if_neg ht, stripBlocks_no_lt _ t hlt, stripBlocks_no_lt _ t hlt,
      pTagsToBreaks_no_lt t hlt, brToNewline_no_lt t hlt, stripTags_no_lt t hlt,
      decodeEntitiesP0_no_amp t hamp]

theorem cleanHtmlText_idem_plain (t : JStr) (hlt : '<' ∉ t) (hamp : '&' ∉ t) :
    cleanHtmlText (cleanHtmlText t) = cleanHtmlText t := by
  rw [cleanHtmlText_plain t hlt hamp,
    cleanHtmlText_plain (jsTrim t) (not_mem_jsTrim t '<' hlt) (not_mem_jsTrim t '&' hamp)]
  exact jsTrim_idem t

theorem cleanHtmlTextP0_idem_plain (t : JStr) (hlt : '<' ∉ t) (hamp : '&' ∉ t) :
    cleanHtmlTextP0 (cleanHtmlTextP0 t) = cleanHtmlTextP0 t := by
  have hlt2 : '<' ∉ jsTrim (collapseNewlines t) :=
    not_mem_jsTrim _ '<' (not_mem_collapse t '<' hlt (by decide))
  have hamp2 : '&' ∉ jsTrim (collapseNewlines t) :=
    not_mem_jsTrim _ '&' (not_mem_collapse t '&' hamp (by decide))
  rw [cleanHtmlTextP0_plain t hlt hamp, cleanHtmlTextP0_plain _ hlt2 hamp2]
  have hnt : NoTriple (jsTrim (collapseNewlines t)) := by
    obtain ⟨a, b, hab⟩ := jsTrim_decomp (collapseNewlines t)
    exact noTriple_middle a _ b (by rw [← hab]; exact noTriple_collapseNewlines t)
  rw [collapseNewlines_of_noTriple _ hnt, jsTrim_idem]

/-! ## Module-level lemmas -/

theorem v2ParseDetails_ok_id (R : V2Regexes) (fetch : Fetch) (id html : JStr)
    (d : BookDetailsV2) (log : List CEvent)
    (h : v2ParseDetails R fetch id html = some (Except.ok d, log)) : d.id = id := by
  simp only [v2ParseDetails] at h
  split at h
  · exact absurd h (by simp)
  · split at h
    · exact absurd h (by simp)
    · exact absurd h (by simp)
    · simp only [Option.some.injEq, Prod.mk.injEq, Except.ok.injEq] at h
      rw [← h.1]

theorem getBookDetailsV2_ok_id (R : V2Regexes) (fetch : Fetch) (id : JStr)
    (d : BookDetailsV2) (log : List CEvent)
    (h : getBookDetailsV2 R fetch id = some (Except.ok d, log)) : d.id = id := by
  simp only [getBookDetailsV2] at h
  split at h
  · exact absurd h (by simp)
  · split at h
    · exact v2ParseDetails_ok_id R fetch id _ d log h
    · split at h
      · exact absurd h (by simp)
      · exact absurd h (by simp)

theorem getBookDetailsP1_ok_id (R : P1Regexes) (fetch : Fetch) (id : JStr)
    (d : BookDetailsP1) (log : List CEvent)
    (h : getBookDetailsP1 R fetch id = some (Except.ok d, log)) : d.id = id := by
  simp only [getBookDetailsP1] at h
  split at h
  · exact absurd h (by simp)
  · split at h
    · split at h
      · exact absurd h (by simp)
      · split at h
        · exact absurd h (by simp)
        · simp only [Option.some.injEq, Prod.mk.injEq, Except.ok.injEq] at h
          rw [← h.1]
    · exact absurd h (by simp)

theorem startsWithHttp_base_append (g : JStr) : startsWithHttp (BASE_URL ++ g) = true := rfl

theorem startsWithHttp_ne_nil (g : JStr) (h : startsWithHttp g = true) : g ≠ [] := by
  intro hg
  rw [hg] at h
  simp [startsWithHttp] at h

theorem v2CoverNorm (g : JStr) :
    startsWithHttp (if startsWithHttp g then g else BASE_URL ++ g) = true := by
  by_cases h : startsWithHttp g = true
  · rw [if_pos h]; exact h
  · rw [if_neg h]; exact startsWithHttp_base_append g

theorem v2CoverNorm_jsOr (g : JStr) :
    startsWithHttp (jsOr (if startsWithHttp g then g else BASE_URL ++ g) placeholderCover)
      = true := by
  by_cases h : startsWithHttp g = true
  · rw [if_pos h, jsOr, if_neg (startsWithHttp_ne_nil g h)]
    exact h
  · have hne : BASE_URL ++ g ≠ [] := by
      intro hc
      have hlen := congrArg List.length hc
      simp only [List.length_append] at hlen
      rw [show BASE_URL.length = 25 from rfl] at hlen
      simp at hlen
    rw [if_neg h, jsOr, if_neg hne]
    exact startsWithHttp_base_append g

theorem v2SearchItem_cover (m : JsMatch) (r : SearchResult)
    (h : v2SearchItem m = some r) : startsWithHttp r.coverUrl = true := by
  simp only [v2SearchItem] at h
  split at h
  · simp only [Option.some.injEq] at h
    rw [← h]
    exact v2CoverNorm_jsOr _
  · exact absurd h (by simp)

theorem searchV2_covers (R : V2Regexes) (fetch : Fetch) (q : JStr)
    (res : List SearchResult) (log : List CEvent)
    (h : searchV2 R fetch q = some (res, log)) :
    ∀ r ∈ res, startsWithHttp r.coverUrl = true := by
  intro r hr
  simp only [searchV2] at h
  split at h
  · simp only [Option.some.injEq, Prod.mk.injEq] at h
    rw [← h.1] at hr
    simp at hr
  · split at h
    · split at h
      · exact absurd h (by simp)
      · simp only [Option.some.injEq, Prod.mk.injEq] at h
        rw [← h.1] at hr
        obtain ⟨m, hm, heq⟩ := List.mem_filterMap.mp hr
        exact v2SearchItem_cover m r heq
    · simp only [Option.some.injEq, Prod.mk.injEq] at h
      rw [← h.1] at hr
      simp at hr

theorem v2ParseDetails_ok_cover (R : V2Regexes) (fetch : Fetch) (id html : JStr)
    (d : BookDetailsV2) (log : List CEvent)
    (h : v2ParseDetails R fetch id html = some (Except.ok d, log)) :
    startsWithHttp d.coverUrl = true := by
  cases hcov : extractFirst html R.cover with
  | none =>
    simp only [v2ParseDetails, hcov] at h
    split at h
    · exact absurd h (by simp)
    · split at h
      · exact absurd h (by simp)
      · exact absurd h (by simp)
      · simp only [Option.some.injEq, Prod.mk.injEq, Except.ok.injEq] at h
        rw [← h.1]
        rfl
  | some gs =>
    simp only [v2ParseDetails, hcov] at h
    split at h
    · exact absurd h (by simp)
    · split at h
      · exact absurd h (by simp)
      · exact absurd h (by simp)
      · simp only [Option.some.injEq, Prod.mk.injEq, Except.ok.injEq] at h
        rw [← h.1]
        exact v2CoverNorm _

theorem getBookDetailsV2_ok_cover (R : V2Regexes) (fetch : Fetch) (id : JStr)
    (d : BookDetailsV2) (log : List CEvent)
    (h : getBookDetailsV2 R fetch id = some (Except.ok d, log)) :
    startsWithHttp d.coverUrl = true := by
  simp only [getBookDetailsV2] at h
  split at h
  · exact absurd h (by simp)
  · split at h
    · exact v2ParseDetails_ok_cover R fetch id _ d log h
    · split at h
      · exact absurd h (by simp)
      · exact absurd h (by simp)

/-- Reading the `extractAll` loop when the regex fails immediately: one
`exec` call, no match, loop ends with an empty list. -/
theorem extractAll_none (r : JsRegex) (html : JStr) (h : r.execAt html 0 = none) :
    extractAll r html = some [] := by
  show extractAllFuel r html (html.length + 2) 0 = some []
  rw [show html.length + 2 = (html.length + 1) + 1 from rfl]
  simp [extractAllFuel, h]

/-! ## Claims -/

/-- C2 (amended part): the part_000 `cleanHtmlText` performs exactly the
six-step TextCleaner pipeline of §4.2 — script/style block removal, paragraph
tags to a double line break, `<br>` to a single line break, stripping of the
remaining tags, entity decoding, collapsing of 3+ line breaks to exactly 2,
and trimming, in that order. -/
theorem c2_cleanP0_is_pipeline : ∀ s : JStr, cleanHtmlTextP0 s = cleanPipelineSpec s := by
  intro s
  cases s with
  | nil => rfl
  | cons c cs => rfl

/-- C2 counterexample: the `cleanHtmlText` of ReadFullNovelV2.js does NOT
perform the claimed pipeline — on `<script>alert(1)</script>` it keeps the
script body as text (no script-block removal), while the claimed pipeline
discards it. -/
theorem c2_counterexample :
    cleanHtmlText (jstr "<script>alert(1)</script>") = jstr "alert(1)" ∧
    cleanPipelineSpec (jstr "<script>alert(1)</script>") = [] ∧
    cleanHtmlText (jstr "<script>alert(1)</script>") ≠
      cleanPipelineSpec (jstr "<script>alert(1)</script>") := by
  refine ⟨by decide, by decide, by decide⟩

/-- C3 (amended): on plain text — no `<` and no `&` — the V2 cleaner is
exactly `trim`, the part_000 cleaner is `trim` after newline collapsing, and
both cleaners are idempotent.  (Idempotence on arbitrary HTML is refuted by
the counterexample.) -/
theorem c3_clean_idempotent_plain (t : JStr) (hlt : '<' ∉ t) (hamp : '&' ∉ t) :
    cleanHtmlText t = jsTrim t ∧
    cleanHtmlTextP0 t = jsTrim (collapseNewlines t) ∧
    cleanHtmlText (cleanHtmlText t) = cleanHtmlText t ∧
    cleanHtmlTextP0 (cleanHtmlTextP0 t) = cleanHtmlTextP0 t :=
  ⟨cleanHtmlText_plain t hlt hamp, cleanHtmlTextP0_plain t hlt hamp,
   cleanHtmlText_idem_plain t hlt hamp, cleanHtmlTextP0_idem_plain t hlt hamp⟩

/-- C3 witness: the amended statement at the concrete plain text `hi`. -/
theorem c3_witness :
    cleanHtmlText (jstr "hi") = jsTrim (jstr "hi") ∧
    cleanHtmlTextP0 (jstr "hi") = jsTrim (collapseNewlines (jstr "hi")) ∧
    cleanHtmlText (cleanHtmlText (jstr "hi")) = cleanHtmlText (jstr "hi") ∧
    cleanHtmlTextP0 (cleanHtmlTextP0 (jstr "hi")) = cleanHtmlTextP0 (jstr "hi") :=
  c3_clean_idempotent_plain (jstr "hi") (by decide) (by decide)

/-- C3 counterexample: `clean (clean x) = clean x` fails for both cleaner
variants on `&lt;b&gt;` (decoding manufactures a tag that the second clean
strips), and `clean t = trim t` fails for part_000 on plain text containing a
triple newline (which the cleaner collapses). -/
theorem c3_counterexample :
    cleanHtmlText (cleanHtmlText (jstr "&lt;b&gt;")) ≠ cleanHtmlText (jstr "&lt;b&gt;") ∧
    cleanHtmlTextP0 (cleanHtmlTextP0 (jstr "&lt;b&gt;")) ≠ cleanHtmlTextP0 (jstr "&lt;b&gt;") ∧
    cleanHtmlTextP0 (jstr "a\n\n\nb") ≠ jsTrim (jstr "a\n\n\nb") := by
  refine ⟨by decide, by decide, by decide⟩

/-- C4 (amended): all three decoders run the named pass, then the decimal
pass, then (except part_002) the hex pass, in that order; part_000 decodes
all six named references including `&apos;`, the V2/MangaPill table stops at
five (`&apos;` passes through), part_002 has no hex pass; decimal and hex
references decode to the character with that code, and unknown named
references are left unchanged without raising. -/
theorem c4_decoder_contract :
    (∀ (c : Char) (s : JStr), decodeEntities (c :: s) =
        decodeHexPass (decodeDecimalPass (decodeNamedPass translateV2 (c :: s)))) ∧
    (∀ (c : Char) (s : JStr), decodeEntitiesP0 (c :: s) =
        decodeHexPass (decodeDecimalPass (decodeNamedPass translateP0 (c :: s)))) ∧
    (∀ (c : Char) (s : JStr), decodeEntitiesP2 (c :: s) =
        decodeDecimalPass (decodeNamedPass translateV2 (c :: s))) ∧
    decodeEntitiesP0 (jstr "&nbsp;&amp;&quot;&lt;&gt;&apos;") = jstr " &\"<>" ++ [aposChar] ∧
    decodeEntities (jstr "&nbsp;&amp;&quot;&lt;&gt;") = jstr " &\"<>" ∧
    decodeEntities (jstr "&#65;") = jstr "A" ∧
    decodeEntities (jstr "&#x41;&#X41;") = jstr "AA" ∧
    decodeEntitiesP0 (jstr "&#x41;") = jstr "A" ∧
    decodeEntitiesP2 (jstr "&#65;") = jstr "A" ∧
    decodeEntities (jstr "&unknown;&foo;") = jstr "&unknown;&foo;" ∧
    decodeEntitiesP0 (jstr "&unknown;") = jstr "&unknown;" := by
  refine ⟨?_, ?_, ?_, by decide, by decide, by decide, by decide, by decide, by decide,
    by decide, by decide⟩
  · intro c s
    rw [decodeEntities, if_neg (by simp)]
  · intro c s
    rw [decodeEntitiesP0, if_neg (by simp)]
  · intro c s
    rfl

/-- C4 counterexample: the claim as stated fails on the code — the
ReadFullNovelV2.js decoder leaves `&apos;` unchanged instead of decoding it,
and the part_002 decoder leaves hex references `&#x41;` unchanged. -/
theorem c4_counterexample :
    decodeEntities (jstr "&apos;") = jstr "&apos;" ∧
    decodeEntities (jstr "&apos;") ≠ [aposChar] ∧
    decodeEntitiesP2 (jstr "&#x41;") = jstr "&#x41;" ∧
    decodeEntitiesP2 (jstr "&#x41;") ≠ jstr "A" := by
  refine ⟨by decide, by decide, by decide, by decide⟩

/-- C5: the `extractAll` loop has no guard against a non-advancing match.
Against a regex that produces a zero-width match (modelled exactly as
`exec` behaves: the match ends where it starts, so `lastIndex` does not
move), the `while ((match = regex.exec(html)) !== null)` loop never
terminates: no amount of fuel completes it.  This contradicts §4.3, which
requires `matchAll` not to loop infinitely on a zero-width match. -/
theorem c5_extractAll_zero_width_diverges :
    ∀ fuel, extractAllFuel zeroWidthRe (jstr "bbb") fuel 0 = none := by
  intro fuel
  induction fuel with
  | zero => rfl
  | succ n ih =>
    have hstep : zeroWidthRe.execAt (jstr "bbb") 0 = some (JsMatch.mk 0 0 []) := rfl
    simp [extractAllFuel, hstep, ih]

/-- C1: identifier round-trip — for any result `r` of `search`, a successful
`getBookDetails(r.id)` returns a record whose `id` equals `r.id`, in both the
ReadNovelFull and the MangaPill module (each echoes the requested identifier
into the returned record). -/
theorem c1_identifier_round_trip :
    (∀ (R : V2Regexes) (fetch : Fetch) (q : JStr) (res : List SearchResult)
        (log log2 : List CEvent) (r : SearchResult) (d : BookDetailsV2),
        searchV2 R fetch q = some (res, log) → r ∈ res →
        getBookDetailsV2 R fetch r.id = some (Except.ok d, log2) → d.id = r.id) ∧
    (∀ (R : P1Regexes) (fetch : Fetch) (q : JStr) (res : List SearchResult)
        (log log2 : List CEvent) (r : SearchResult) (d : BookDetailsP1),
        searchP1 R fetch q = some (res, log) → r ∈ res →
        getBookDetailsP1 R fetch r.id = some (Except.ok d, log2) → d.id = r.id) := by
  constructor
  · intro R fetch q res log log2 r d _ _ h
    exact getBookDetailsV2_ok_id R fetch r.id d log2 h
  · intro R fetch q res log log2 r d _ _ h
    exact getBookDetailsP1_ok_id R fetch r.id d log2 h

/-- C1 witness: a concrete search producing one result whose identifier
round-trips through `getBookDetails`. -/
theorem c1_witness : (defaultsV2 (jstr "martial-peak")).id = resultC1.id :=
  c1_identifier_round_trip.1 RsearchC1 fetchOk (jstr "q") [resultC1] [] [CEvent.warnNoNovelId]
    resultC1 (defaultsV2 (jstr "martial-peak")) (by decide) (by decide) (by decide)

/-- C6: evaluation at the failing input.  When the primary `.html` URL
answers non-success and the alternate URL answers success, `getBookDetails`
still fails (the `const response` reassignment throws a TypeError before the
fallback response can be used), while `getContent` — whose `response` is a
`let` — retries once, proceeds with the fallback response, and raises a
status error only when both fetches are non-success. -/
theorem c6_retry_behaviour :
    getBookDetailsV2 RallNeverV2 fetchC6 (jstr "x") =
      some (Except.error JsErr.constAssign, [CEvent.errDetailsCatch]) ∧
    getContentV2 RC6 fetchC6 (jstr "x") = (Except.ok (jstr "Hi"), []) ∧
    getContentV2 RC6 fetch500 (jstr "x") =
      (Except.error (JsErr.contentStatus 500), [CEvent.errContentCatch]) := by
  refine ⟨by decide, by decide, by decide⟩

/-- C7 (amended): when the title pattern (and every other field pattern)
yields no match on a successfully fetched document, `getBookDetails` does
NOT raise — it succeeds with every field silently defaulted, the title to
`Unknown Title`, in both modules. -/
theorem c7_missing_title_defaults :
    (∀ (R : V2Regexes) (fetch : Fetch) (id : JStr) (resp : Response),
      fetch (urlWithHtml id) = some resp → resp.ok = true →
      R.title.execAt resp.body 0 = none →
      R.author.execAt resp.body 0 = none →
      R.cover.execAt resp.body 0 = none →
      R.desc.execAt resp.body 0 = none →
      R.genreList.execAt resp.body 0 = none →
      R.status.execAt resp.body 0 = none →
      R.novelId.execAt resp.body 0 = none →
      R.novelIdAlt.execAt resp.body 0 = none →
      R.listChapter.execAt resp.body 0 = none →
      getBookDetailsV2 R fetch id = some (Except.ok (defaultsV2 id), [CEvent.warnNoNovelId])) ∧
    (∀ (R : P1Regexes) (fetch : Fetch) (id : JStr) (resp : Response),
      fetch (bookUrlP1 id) = some resp → resp.ok = true →
      R.title.execAt resp.body 0 = none →
      R.cover.execAt resp.body 0 = none →
      R.coverAlt.execAt resp.body 0 = none →
      R.desc.execAt resp.body 0 = none →
      R.author.execAt resp.body 0 = none →
      R.authorAlt.execAt resp.body 0 = none →
      R.status.execAt resp.body 0 = none →
      R.mediaType.execAt resp.body 0 = none →
      R.genreLink.execAt resp.body 0 = none →
      R.chaptersDiv.execAt resp.body 0 = none →
      getBookDetailsP1 R fetch id = some (Except.ok (defaultsP1 id), [])) := by
  constructor
  · intro R fetch id resp hf hok ht ha hc hd hg hs hn hna hl
    simp only [getBookDetailsV2, hf, hok, if_true]
    simp only [v2ParseDetails, v2Genres, v2Chapters, extractFirst, ht, ha, hc, hd, hg, hs,
      hn, hna, hl, Option.map_none']
    simp [defaultsV2]
  · intro R fetch id resp hf hok ht hc hca hd ha haa hs hm hg hcd
    simp only [getBookDetailsP1, hf, hok, if_true]
    simp only [extractFirst, p1Chapters, ht, hc, hca, hd, ha, haa, hs, hm, hcd,
      Option.map_none', extractAll_none R.genreLink resp.body hg]
    simp [defaultsP1]

/-- C7 witness: the amended statement at a concrete all-defaults instance. -/
theorem c7_witness :
    getBookDetailsV2 RallNeverV2 fetchOk (jstr "slug") =
      some (Except.ok (defaultsV2 (jstr "slug")), [CEvent.warnNoNovelId]) ∧
    getBookDetailsP1 RallNeverP1 fetchOk (jstr "/manga/1/x") =
      some (Except.ok (defaultsP1 (jstr "/manga/1/x")), []) :=
  ⟨c7_missing_title_defaults.1 RallNeverV2 fetchOk (jstr "slug")
      (Response.mk true 200 (jstr "page")) rfl rfl rfl rfl rfl rfl rfl rfl rfl rfl rfl,
   c7_missing_title_defaults.2 RallNeverP1 fetchOk (jstr "/manga/1/x")
      (Response.mk true 200 (jstr "page")) rfl rfl rfl rfl rfl rfl rfl rfl rfl rfl rfl rfl⟩

/-- C7 counterexample: the claim as stated is false — with no title match at
all, `getBookDetails` returns `Except.ok` with the title silently defaulted
to `Unknown Title` instead of raising a typed failure. -/
theorem c7_counterexample :
    getBookDetailsV2 RallNeverV2 fetchOk (jstr "book") =
      some (Except.ok (defaultsV2 (jstr "book")), [CEvent.warnNoNovelId]) ∧
    (defaultsV2 (jstr "book")).title = jstr "Unknown Title" := by
  refine ⟨by decide, by decide⟩

/-- C8: `search` never raises on a recoverable failure, in both modules: a
rejected fetch and a non-success status each return the empty list with the
failure reported to the console sink, and a page whose blocks are all
malformed (every match filtered out) returns the empty list. -/
theorem c8_search_never_raises :
    (∀ (R : V2Regexes) (fetch : Fetch) (q : JStr),
      fetch (searchUrlV2 q) = none →
      searchV2 R fetch q = some ([], [CEvent.errSearchCatch])) ∧
    (∀ (R : V2Regexes) (fetch : Fetch) (q : JStr) (resp : Response),
      fetch (searchUrlV2 q) = some resp → resp.ok = false →
      searchV2 R fetch q = some ([], [CEvent.errSearchStatus resp.status])) ∧
    (∀ (R : V2Regexes) (fetch : Fetch) (q : JStr) (resp : Response) (ms : List JsMatch),
      fetch (searchUrlV2 q) = some resp → resp.ok = true →
      extractAll R.comprehensiveItem resp.body = some ms →
      (∀ m ∈ ms, v2SearchItem m = none) →
      searchV2 R fetch q = some ([], [])) ∧
    (∀ (R : P1Regexes) (fetch : Fetch) (q : JStr),
      fetch (searchUrlP1 q) = none →
      searchP1 R fetch q = some ([], [CEvent.errSearchCatch])) ∧
    (∀ (R : P1Regexes) (fetch : Fetch) (q : JStr) (resp : Response),
      fetch (searchUrlP1 q) = some resp → resp.ok = false →
      searchP1 R fetch q = some ([], [CEvent.errSearchStatus resp.status])) ∧
    (∀ (R : P1Regexes) (fetch : Fetch) (q : JStr) (resp : Response) (ms : List JsMatch),
      fetch (searchUrlP1 q) = some resp → resp.ok = true →
      extractAll R.item resp.body = some ms →
      (∀ m ∈ ms, p1SearchItem m = none) →
      searchP1 R fetch q = some ([], [])) := by
  refine ⟨?_, ?_, ?_, ?_, ?_, ?_⟩
  · intro R fetch q h
    simp [searchV2, h]
  · intro R fetch q resp h hok
    simp [searchV2, h, hok]
  · intro R fetch q resp ms h hok hms hall
    simp only [searchV2, h, hok, if_true, hms]
    simp [List.filterMap_eq_nil_iff.mpr hall]
  · intro R fetch q h
    simp [searchP1, h]
  · intro R fetch q resp h hok
    simp [searchP1, h, hok]
  · intro R fetch q resp ms h hok hms hall
    simp only [searchP1, h, hok, if_true, hms]
    simp [List.filterMap_eq_nil_iff.mpr hall]

/-- C8 witness: concrete failing transports produce the empty result with a
reported failure. -/
theorem c8_witness :
    searchV2 RallNeverV2 fetchNone (jstr "q") = some ([], [CEvent.errSearchCatch]) ∧
    searchP1 RallNeverP1 fetch500 (jstr "q") = some ([], [CEvent.errSearchStatus 500]) :=
  ⟨c8_search_never_raises.1 RallNeverV2 fetchNone (jstr "q") rfl,
   c8_search_never_raises.2.2.2.2.1 RallNeverP1 fetch500 (jstr "q")
     (Response.mk false 500 []) rfl rfl⟩

/-- C9 (amended): the part_000 `getContent` fallback chain — the primary
container pattern wins whenever it captures non-empty text (the fallback is
never consulted), and when the primary is absent or captures an empty string
while the fallback captures text whose CLEANED form is non-empty, the result
is the cleaned fallback text with no failure; the claim's unqualified
"non-empty match text" is refuted by the counterexample, because a fallback
capture whose cleaned text is empty still raises an EmptyResult failure. -/
theorem c9_fallback_chain :
    (∀ (R : P0Regexes) (fetch : Fetch) (id : JStr) (b : BookRefP0) (resp : Response)
        (m : JsMatch) (c : JStr),
      b.id ≠ [] →
      fetch (contentUrlP0 b.id id) = some resp → resp.ok = true →
      R.content.execAt resp.body 0 = some m → grp m.groups 1 = c → c ≠ [] →
      cleanHtmlTextP0 c ≠ [] →
      getContentP0 R fetch id (some b) = (Except.ok (cleanHtmlTextP0 c), [])) ∧
    (∀ (R : P0Regexes) (fetch : Fetch) (id : JStr) (b : BookRefP0) (resp : Response)
        (mf : JsMatch) (c : JStr),
      b.id ≠ [] →
      fetch (contentUrlP0 b.id id) = some resp → resp.ok = true →
      (∀ m, R.content.execAt resp.body 0 = some m → grp m.groups 1 = []) →
      R.fallback.execAt resp.body 0 = some mf → grp mf.groups 1 = c → c ≠ [] →
      cleanHtmlTextP0 c ≠ [] →
      getContentP0 R fetch id (some b) =
        (Except.ok (cleanHtmlTextP0 c), [CEvent.errContentMissing])) := by
  constructor
  · intro R fetch id b resp m c hb hf hok hm hgrp hcne hclean
    simp only [getContentP0, hb, if_false, hf, hok, if_true, extractFirst, hm,
      Option.map_some', hgrp, hcne, p0Finish, hclean]
  · intro R fetch id b resp mf c hb hf hok hprim hfb hgrp hcne hclean
    simp only [getContentP0, hf, hok, if_true]
    rw [if_neg hb]
    cases hpm : R.content.execAt resp.body 0 with
    | none =>
      simp only [extractFirst, hpm, Option.map_none', p0Fallback, hfb, Option.map_some',
        hgrp, p0Finish]
      simp [hcne, hclean]
    | some m =>
      have hempty := hprim m hpm
      simp only [extractFirst, hpm, Option.map_some', hempty, if_true, p0Fallback, hfb,
        hgrp, p0Finish]
      simp [hcne, hclean]

/-- C9 witness: a concrete document where the primary container is absent
and the fallback captures `<p>Hello</p>` — the result is the cleaned
fallback text, no failure. -/
theorem c9_witness :
    getContentP0 Rp0Good fetchOk (jstr "chapter-1") (some (BookRefP0.mk (jstr "bk"))) =
      (Except.ok (cleanHtmlTextP0 (jstr "<p>Hello</p>")), [CEvent.errContentMissing]) :=
  c9_fallback_chain.2 Rp0Good fetchOk (jstr "chapter-1") (BookRefP0.mk (jstr "bk"))
    (Response.mk true 200 (jstr "page")) (JsMatch.mk 0 4 [some (jstr "<p>Hello</p>")])
    (jstr "<p>Hello</p>") (by decide) rfl rfl
    (by intro m h; simp [neverRe, Rp0Good] at h) rfl rfl (by decide) (by decide)

/-- C9 counterexample: the fallback pattern matches the NON-empty text
`<p></p>`, yet `getContent` raises (EmptyResult) because the cleaned text is
empty — contradicting "result equals cleaned fallback text and no failure
raised" for every non-empty fallback match. -/
theorem c9_counterexample :
    jstr "<p></p>" ≠ [] ∧
    getContentP0 Rp0Empty fetchOk (jstr "chapter-1") (some (BookRefP0.mk (jstr "bk"))) =
      (Except.error JsErr.contentEmpty,
        [CEvent.errContentMissing, CEvent.warnContentEmpty, CEvent.errContentCatch]) := by
  refine ⟨by decide, by decide⟩

/-- C10 (amended): in the ReadNovelFull module every cover URL handed to the
caller starts with `http` — a relative cover is resolved against the origin,
an absent one becomes the absolute placeholder; the MangaPill module (see
the counterexample) performs no such normalization. -/
theorem c10_cover_absolute_v2 :
    (∀ (R : V2Regexes) (fetch : Fetch) (q : JStr) (res : List SearchResult)
        (log : List CEvent),
      searchV2 R fetch q = some (res, log) →
      ∀ r ∈ res, startsWithHttp r.coverUrl = true) ∧
    (∀ (R : V2Regexes) (fetch : Fetch) (id : JStr) (d : BookDetailsV2) (log : List CEvent),
      getBookDetailsV2 R fetch id = some (Except.ok d, log) →
      startsWithHttp d.coverUrl = true) :=
  ⟨fun R fetch q res log h => searchV2_covers R fetch q res log h,
   fun R fetch id d log h => getBookDetailsV2_ok_cover R fetch id d log h⟩

/-- C10 witness: the normalization statement at a concrete detail fetch
(absent cover pattern, placeholder returned). -/
theorem c10_witness : startsWithHttp (defaultsV2 (jstr "w")).coverUrl = true :=
  c10_cover_absolute_v2.2 RallNeverV2 fetchOk (jstr "w") (defaultsV2 (jstr "w"))
    [CEvent.warnNoNovelId] (by decide)

/-- C10 counterexample: the MangaPill module returns the extracted
`data-src` verbatim — a relative cover path reaches the caller unresolved,
and an absent cover in `getBookDetails` becomes the empty string, which is
not absolute either. -/
theorem c10_counterexample :
    searchP1 Rp1Search fetchOk (jstr "q") = some ([resultP1], []) ∧
    resultP1.coverUrl = jstr "/images/c.jpg" ∧
    startsWithHttp resultP1.coverUrl = false ∧
    getBookDetailsP1 RallNeverP1 fetchOk (jstr "/manga/1/x") =
      some (Except.ok (defaultsP1 (jstr "/manga/1/x")), []) ∧
    (defaultsP1 (jstr "/manga/1/x")).coverUrl = [] := by
  refine ⟨by decide, by decide, by decide, by decide, by decide⟩

end Rida
